import Mathlib

/-!
# TDengine Go insertion examples: `docs-examples/go/insert/{json,telnet}/main.go`

Both programs are straight-line scripts over the external driver package
`github.com/taosdata/driver-go/v2/af`.  The driver is not part of the
repository, so it is a parameter of the embedding: a deterministic state
machine that answers the calls made on an opened connector.  Two facts
about the package are part of the embedding, because the programs can run
into them: `af.Open` returns a nil connector together with its error, and
the methods of `*af.Connector` read the connector's fields, so that a call
on the nil connector panics with a nil pointer dereference.

The programs are embedded in a small Go-like monad with panics, function
frames and `defer`, and every run yields the trace of driver calls and
printed lines, the outcome and the final driver state.
-/

namespace TDengine

/-! ## Values -/

/-- A non-nil value of Go's `error` interface, identified by its message.
The `error` values of the program are `Option GoError`, `none` being `nil`. -/
structure GoError where
  msg : String
  deriving DecidableEq, Repr

/-- The run-time error of a method call on a nil pointer that reads a field. -/
def nilDereference : GoError :=
  ⟨"runtime error: invalid memory address or nil pointer dereference"⟩

/-- A connector the driver has opened. -/
abbrev Handle := Nat

/-- A value of type `*af.Connector`: `none` is `nil`, `some h` points to the
opened connector `h`. -/
abbrev ConnPtr := Option Handle

/-- One operand of `fmt.Println`. -/
inductive Operand where
  | str (s : String)
  | err (e : GoError)
  deriving DecidableEq, Repr

/-! ## The external driver -/

/-- The calls of package `af` the programs make, as transitions of a state
machine on `σ`: the answer to a call may depend on every call made before.
`Open` either opens a connector or fails with an error.  The methods are
given for an opened connector, where they return; `Exec` returns
`(driver.Result, error)` and both programs discard the result with `_`, so
only the error is kept. -/
structure Driver (σ : Type) where
  Open : String → String → String → String → Int → σ → Except GoError Handle × σ
  Exec : Handle → String → σ → Option GoError × σ
  OpenTSDBInsertJsonPayload : Handle → String → σ → Option GoError × σ
  OpenTSDBInsertTelnetLines : Handle → List String → σ → Option GoError × σ
  Close : Handle → σ → Option GoError × σ

/-- How a method call ends: it returns its error value, or it panics. -/
inductive CallResult where
  | returned (err : Option GoError)
  | panicked (v : GoError)
  deriving DecidableEq, Repr

/-- What a run does that can be observed: driver calls, with their arguments
and results, and lines printed by `fmt.Println`. -/
inductive Event where
  | callOpen (host user pass db : String) (port : Int) (conn : ConnPtr) (err : Option GoError)
  | callExec (conn : ConnPtr) (sql : String) (res : CallResult)
  | callInsertJson (conn : ConnPtr) (payload : String) (res : CallResult)
  | callInsertTelnet (conn : ConnPtr) (lines : List String) (res : CallResult)
  | callClose (conn : ConnPtr) (res : CallResult)
  | println (operands : List Operand)
  deriving DecidableEq, Repr

/-! ## A Go-like monad: panics, frames, defer -/

/-- How a statement or a function ends. -/
inductive Outcome (α : Type) where
  | returned (a : α)
  | panicked (v : GoError)
  deriving DecidableEq, Repr

/-- A deferred call, its receiver evaluated when the `defer` statement ran. -/
inductive Deferred where
  | connClose (conn : ConnPtr)
  deriving DecidableEq, Repr

/-- The state a statement runs in: the driver's state and the deferred calls
of the current function, most recent first. -/
structure Frame (σ : Type) where
  drv : σ
  deferred : List Deferred

/-- The result of running a statement. -/
structure Run (σ α : Type) where
  outcome : Outcome α
  frame : Frame σ
  trace : List Event

/-- Statements. -/
def Go (σ α : Type) : Type := Frame σ → Run σ α

namespace Go

variable {σ α β : Type}

/-- Normal completion with a value. -/
def ret (a : α) : Go σ α := fun fr => { outcome := .returned a, frame := fr, trace := [] }

/-- Sequencing: a panic skips the rest. -/
def seq (m : Go σ α) (k : α → Go σ β) : Go σ β := fun fr =>
  let r := m fr
  match r.outcome with
  | .panicked v => { outcome := .panicked v, frame := r.frame, trace := r.trace }
  | .returned a =>
    let r2 := k a r.frame
    { outcome := r2.outcome, frame := r2.frame, trace := r.trace ++ r2.trace }

instance : Monad (Go σ) where
  pure := ret
  bind := seq

/-- The builtin `panic(v)`. -/
def panic (v : GoError) : Go σ α := fun fr =>
  { outcome := .panicked v, frame := fr, trace := [] }

/-- The statement `defer conn.Close()`: the call is pushed, not made.  The receiver
`conn` is a pointer and is saved as it is, nil or not. -/
def deferCall (c : Deferred) : Go σ Unit := fun fr =>
  { outcome := .returned (), frame := { fr with deferred := c :: fr.deferred }, trace := [] }

end Go

namespace fmt

/-- The call `fmt.Println(operands...)`. -/
def Println {σ : Type} (operands : List Operand) : Go σ Unit := fun fr =>
  { outcome := .returned (), frame := fr, trace := [Event.println operands] }

end fmt

namespace af

variable {σ : Type}

/-- The call `af.Open(host, user, pass, db, port)`: a pointer to the opened
connector and a nil error, or a nil connector and the error. -/
def Open (d : Driver σ) (host user pass db : String) (port : Int) :
    Go σ (ConnPtr × Option GoError) := fun fr =>
  let r := d.Open host user pass db port fr.drv
  let res : ConnPtr × Option GoError :=
    match r.1 with
    | .ok h => (some h, none)
    | .error e => (none, some e)
  { outcome := .returned res, frame := { fr with drv := r.2 },
    trace := [Event.callOpen host user pass db port res.1 res.2] }

/-- A call of a method of `*af.Connector`, recorded as `ev`.  On the nil
connector the call panics with a nil pointer dereference and the driver's state
is left as it was; on an opened connector the driver answers. -/
def Connector.invoke (conn : ConnPtr) (step : Handle → σ → Option GoError × σ)
    (ev : CallResult → Event) : Go σ (Option GoError) := fun fr =>
  match conn with
  | none =>
    { outcome := .panicked nilDereference, frame := fr,
      trace := [ev (.panicked nilDereference)] }
  | some h =>
    let r := step h fr.drv
    { outcome := .returned r.1, frame := { fr with drv := r.2 },
      trace := [ev (.returned r.1)] }

/-- The call `conn.Exec(sql)`. -/
def Connector.Exec (d : Driver σ) (conn : ConnPtr) (sql : String) : Go σ (Option GoError) :=
  Connector.invoke conn (fun h => d.Exec h sql) (Event.callExec conn sql)

/-- The call `conn.OpenTSDBInsertJsonPayload(payload)`. -/
def Connector.OpenTSDBInsertJsonPayload (d : Driver σ) (conn : ConnPtr) (payload : String) :
    Go σ (Option GoError) :=
  Connector.invoke conn (fun h => d.OpenTSDBInsertJsonPayload h payload)
    (Event.callInsertJson conn payload)

/-- The call `conn.OpenTSDBInsertTelnetLines(lines)`. -/
def Connector.OpenTSDBInsertTelnetLines (d : Driver σ) (conn : ConnPtr) (lines : List String) :
    Go σ (Option GoError) :=
  Connector.invoke conn (fun h => d.OpenTSDBInsertTelnetLines h lines)
    (Event.callInsertTelnet conn lines)

/-- The call `conn.Close()`. -/
def Connector.Close (d : Driver σ) (conn : ConnPtr) : Go σ (Option GoError) :=
  Connector.invoke conn (fun h => d.Close h) (Event.callClose conn)

end af

namespace Go

variable {σ α : Type}

/-- Run one deferred call; its result is discarded. -/
def runDeferred (d : Driver σ) : Deferred → Go σ Unit
  | .connClose conn => Go.seq (af.Connector.Close d conn) (fun _ => Go.ret ())

/-- Run the deferred calls of a frame, most recent first.  A deferred call that
panics does not stop the later ones, and the last panic raised is the one that
goes on. -/
def unwind (d : Driver σ) : List Deferred → Frame σ → Outcome Unit × Frame σ × List Event
  | [], fr => (.returned (), fr, [])
  | c :: cs, fr =>
    let r := runDeferred d c fr
    let rest := unwind d cs r.frame
    match r.outcome with
    | .returned _ => (rest.1, rest.2.1, r.trace ++ rest.2.2)
    | .panicked v =>
      (match rest.1 with
        | .returned _ => .panicked v
        | .panicked w => .panicked w, rest.2.1, r.trace ++ rest.2.2)

/-- A function call: the body runs in a fresh frame; when it returns or panics
its deferred calls run, and then the result or the panic reaches the caller.
A panic raised by a deferred call takes the place of the body's. -/
def func (d : Driver σ) (body : Go σ α) : Go σ α := fun fr =>
  let r := body { drv := fr.drv, deferred := [] }
  let u := unwind d r.frame.deferred { drv := r.frame.drv, deferred := [] }
  { outcome :=
      match u.1 with
      | .returned _ => r.outcome
      | .panicked w => .panicked w
    frame := { drv := u.2.1.drv, deferred := fr.deferred }
    trace := r.trace ++ u.2.2 }

end Go

/-- The whole program: `main` called on the initial driver state. -/
def runProgram {σ : Type} (mainFn : Go σ Unit) (s0 : σ) : Run σ Unit :=
  mainFn { drv := s0, deferred := [] }

/-! ## `docs-examples/go/insert/json/main.go` -/

namespace json

variable {σ : Type}

/-- The function `prepareDatabase` of `json/main.go`. -/
def prepareDatabase (d : Driver σ) (conn : ConnPtr) : Go σ Unit :=
  Go.func d do
    let err ← af.Connector.Exec d conn "CREATE DATABASE test"
    match err with
    | some e => Go.panic e
    | none => pure ()
    let err ← af.Connector.Exec d conn "use test"
    match err with
    | some e => Go.panic e
    | none => pure ()

/-- The raw string literal assigned to `payload` in `main`. -/
def payload : String :=
  "[\x7b\"metric\": \"meters.current\", \"timestamp\": 1648432611249, \"value\": 10.3, \"tags\": \x7b\"location\": \"Beijing.Chaoyang\", \"groupid\": 2\x7d\x7d,\n\t\t\t\t\x7b\"metric\": \"meters.voltage\", \"timestamp\": 1648432611249, \"value\": 219, \"tags\": \x7b\"location\": \"Beijing.Haidian\", \"groupid\": 1\x7d\x7d,\n\t\t\t\t\x7b\"metric\": \"meters.current\", \"timestamp\": 1648432611250, \"value\": 12.6, \"tags\": \x7b\"location\": \"Beijing.Chaoyang\", \"groupid\": 2\x7d\x7d,\n\t\t\t\t\x7b\"metric\": \"meters.voltage\", \"timestamp\": 1648432611250, \"value\": 221, \"tags\": \x7b\"location\": \"Beijing.Haidian\", \"groupid\": 1\x7d\x7d]"

/-- The function `main` of `json/main.go`. -/
def main (d : Driver σ) : Go σ Unit :=
  Go.func d do
    let (conn, err) ← af.Open d "localhost" "root" "taosdata" "" 6030
    match err with
    | some e => fmt.Println [.str "fail to connect, err:", .err e]
    | none => pure ()
    Go.deferCall (.connClose conn)
    prepareDatabase d conn
    let err ← af.Connector.OpenTSDBInsertJsonPayload d conn payload
    match err with
    | some e => fmt.Println [.str "insert error:", .err e]
    | none => pure ()

end json

/-! ## `docs-examples/go/insert/telnet/main.go` -/

namespace telnet

variable {σ : Type}

/-- The function `prepareDatabase` of `telnet/main.go`. -/
def prepareDatabase (d : Driver σ) (conn : ConnPtr) : Go σ Unit :=
  Go.func d do
    let err ← af.Connector.Exec d conn "CREATE DATABASE test"
    match err with
    | some e => Go.panic e
    | none => pure ()
    let err ← af.Connector.Exec d conn "use test"
    match err with
    | some e => Go.panic e
    | none => pure ()

/-- The slice literal assigned to `lines` in `main`. -/
def lines : List String := [
  "meters.current 1648432611249 10.3 location=Beijing.Chaoyang groupid=2",
  "meters.current 1648432611250 12.6 location=Beijing.Chaoyang groupid=2",
  "meters.current 1648432611249 10.8 location=Beijing.Haidian groupid=3",
  "meters.current 1648432611250 11.3 location=Beijing.Haidian groupid=3",
  "meters.voltage 1648432611249 219 location=Beijing.Chaoyang groupid=2",
  "meters.voltage 1648432611250 218 location=Beijing.Chaoyang groupid=2",
  "meters.voltage 1648432611249 221 location=Beijing.Haidian groupid=3",
  "meters.voltage 1648432611250 217 location=Beijing.Haidian groupid=3"]

/-- The function `main` of `telnet/main.go`. -/
def main (d : Driver σ) : Go σ Unit :=
  Go.func d do
    let (conn, err) ← af.Open d "localhost" "root" "taosdata" "" 6030
    match err with
    | some e => fmt.Println [.str "fail to connect, err:", .err e]
    | none => pure ()
    Go.deferCall (.connClose conn)
    prepareDatabase d conn
    let err ← af.Connector.OpenTSDBInsertTelnetLines d conn lines
    match err with
    | some e => fmt.Println [.str "insert error:", .err e]
    | none => pure ()

end telnet

/-! ## Scripted drivers, used to run the programs on concrete behaviours -/

/-- The answers a scripted driver gives: for `Open`, for the two statements,
for the insertion call and for `Close`. -/
structure Script where
  opened : Except GoError Handle
  createErr : Option GoError
  useErr : Option GoError
  insertErr : Option GoError
  closeErr : Option GoError

/-- The driver that answers from a script; its state counts the calls it answered. -/
def scripted (sc : Script) : Driver Nat where
  Open := fun _ _ _ _ _ n => (sc.opened, n + 1)
  Exec := fun _ sql n => (if sql = "CREATE DATABASE test" then sc.createErr else sc.useErr, n + 1)
  OpenTSDBInsertJsonPayload := fun _ _ n => (sc.insertErr, n + 1)
  OpenTSDBInsertTelnetLines := fun _ _ n => (sc.insertErr, n + 1)
  Close := fun _ n => (sc.closeErr, n + 1)

/-- Every call succeeds; `Open` opens connector 1. -/
def allOk : Script :=
  { opened := .ok 1, createErr := none, useErr := none, insertErr := none, closeErr := none }

/-- The server cannot be reached: `Open` fails. -/
def refusedOpen : Script :=
  { opened := .error ⟨"connection refused"⟩, createErr := none, useErr := none,
    insertErr := none, closeErr := none }

/-- The statement `CREATE DATABASE test` fails. -/
def createFails : Script :=
  { opened := .ok 1, createErr := some ⟨"database already exists"⟩,
    useErr := none, insertErr := none, closeErr := none }

/-- The statement `use test` fails. -/
def useFails : Script :=
  { opened := .ok 1, createErr := none,
    useErr := some ⟨"invalid database"⟩, insertErr := none, closeErr := none }

/-- The insertion call fails. -/
def insertFails : Script :=
  { opened := .ok 1, createErr := none, useErr := none,
    insertErr := some ⟨"syntax error"⟩, closeErr := none }

/-! ## The two programs side by side -/

/-- The two example programs of the repository. -/
inductive Program where
  | json
  | telnet
  deriving DecidableEq, Repr

namespace Program

variable {σ : Type}

/-- The `prepareDatabase` of a program. -/
def prepareDatabase (p : Program) (d : Driver σ) (conn : ConnPtr) : Go σ Unit :=
  match p with
  | .json => json.prepareDatabase d conn
  | .telnet => telnet.prepareDatabase d conn

/-- The `main` of a program. -/
def main (p : Program) (d : Driver σ) : Go σ Unit :=
  match p with
  | .json => json.main d
  | .telnet => telnet.main d

/-- A run of a program against a driver that starts in state `s0`. -/
def run (p : Program) (d : Driver σ) (s0 : σ) : Run σ Unit :=
  runProgram (p.main d) s0

/-- The event of a program's insertion call, with its hardcoded argument, on
connection `conn` and with result `res`. -/
def insertCall (p : Program) (conn : ConnPtr) (res : CallResult) : Event :=
  match p with
  | .json => Event.callInsertJson conn json.payload res
  | .telnet => Event.callInsertTelnet conn telnet.lines res

/-- The transition of the driver a program's insertion call makes. -/
def insertStep (p : Program) (d : Driver σ) (h : Handle) : σ → Option GoError × σ :=
  match p with
  | .json => d.OpenTSDBInsertJsonPayload h json.payload
  | .telnet => d.OpenTSDBInsertTelnetLines h telnet.lines

end Program

/-! ## Observations on traces -/

namespace Event

/-- An insertion call, of either kind. -/
def isInsert : Event → Bool
  | callInsertJson _ _ _ => true
  | callInsertTelnet _ _ _ => true
  | _ => false

/-- A call of `Close`. -/
def isClose : Event → Bool
  | callClose _ _ => true
  | _ => false

/-- A driver call, as opposed to a printed line. -/
def isDriverCall : Event → Bool
  | println _ => false
  | _ => true

/-- How a driver call ended; a printed line counts as a return without error. -/
def result : Event → CallResult
  | callOpen _ _ _ _ _ _ e => .returned e
  | callExec _ _ r => r
  | callInsertJson _ _ r => r
  | callInsertTelnet _ _ r => r
  | callClose _ r => r
  | println _ => .returned none

/-- The operands of a printed line. -/
def printed : Event → Option (List Operand)
  | println ops => some ops
  | _ => none

end Event

/-- How many times `Close` is called in a trace. -/
def closeCount (tr : List Event) : Nat := tr.countP Event.isClose

/-- How many insertion calls a trace has. -/
def insertCount (tr : List Event) : Nat := tr.countP Event.isInsert

/-- The driver calls of a trace, in order. -/
def driverCalls (tr : List Event) : List Event := tr.filter Event.isDriverCall

/-- The lines a trace prints, in order. -/
def printedLines (tr : List Event) : List (List Operand) := tr.filterMap Event.printed

/-- An event with the insertion call's name and payload abstracted away. -/
inductive AbsEvent where
  | insertion (conn : ConnPtr) (res : CallResult)
  | other (ev : Event)
  deriving DecidableEq, Repr

/-- Forget which insertion call was made and with what payload. -/
def Event.abstractInsert : Event → AbsEvent
  | .callInsertJson conn _ res => .insertion conn res
  | .callInsertTelnet conn _ res => .insertion conn res
  | ev => .other ev

/-! ## The straight-line form of both programs -/

section StraightLine

variable {σ : Type}

/-- The events of reporting the insertion call's result. -/
def reportEvents (err : Option GoError) : List Event :=
  match err with
  | some e => [Event.println [.str "insert error:", .err e]]
  | none => []

/-- The run of `prepareDatabase` written out by cases on the connector and on the
driver's answers. -/
def prepareRun (d : Driver σ) (conn : ConnPtr) (fr : Frame σ) : Run σ Unit :=
  match conn with
  | none =>
    { outcome := .panicked nilDereference, frame := { drv := fr.drv, deferred := fr.deferred },
      trace := [Event.callExec none "CREATE DATABASE test" (.panicked nilDereference)] }
  | some h =>
    let c1 := d.Exec h "CREATE DATABASE test" fr.drv
    match c1.1 with
    | some e =>
      { outcome := .panicked e, frame := { drv := c1.2, deferred := fr.deferred },
        trace := [Event.callExec (some h) "CREATE DATABASE test" (.returned (some e))] }
    | none =>
      let c2 := d.Exec h "use test" c1.2
      match c2.1 with
      | some e =>
        { outcome := .panicked e, frame := { drv := c2.2, deferred := fr.deferred },
          trace := [Event.callExec (some h) "CREATE DATABASE test" (.returned none),
                    Event.callExec (some h) "use test" (.returned (some e))] }
      | none =>
        { outcome := .returned (), frame := { drv := c2.2, deferred := fr.deferred },
          trace := [Event.callExec (some h) "CREATE DATABASE test" (.returned none),
                    Event.callExec (some h) "use test" (.returned none)] }

/-- The run of a `main` written out by cases on the driver's answers, for
an insertion call `ins` recorded as `insEv`. -/
def mainRun (d : Driver σ) (ins : Handle → σ → Option GoError × σ)
    (insEv : ConnPtr → CallResult → Event) (s0 : σ) : Run σ Unit :=
  let o := d.Open "localhost" "root" "taosdata" "" 6030 s0
  match o.1 with
  | .error e0 =>
    { outcome := .panicked nilDereference, frame := { drv := o.2, deferred := [] },
      trace := [Event.callOpen "localhost" "root" "taosdata" "" 6030 none (some e0),
        Event.println [.str "fail to connect, err:", .err e0],
        Event.callExec none "CREATE DATABASE test" (.panicked nilDereference),
        Event.callClose none (.panicked nilDereference)] }
  | .ok h =>
    let c1 := d.Exec h "CREATE DATABASE test" o.2
    match c1.1 with
    | some e =>
      let cl := d.Close h c1.2
      { outcome := .panicked e, frame := { drv := cl.2, deferred := [] },
        trace := [Event.callOpen "localhost" "root" "taosdata" "" 6030 (some h) none,
          Event.callExec (some h) "CREATE DATABASE test" (.returned (some e)),
          Event.callClose (some h) (.returned cl.1)] }
    | none =>
      let c2 := d.Exec h "use test" c1.2
      match c2.1 with
      | some e =>
        let cl := d.Close h c2.2
        { outcome := .panicked e, frame := { drv := cl.2, deferred := [] },
          trace := [Event.callOpen "localhost" "root" "taosdata" "" 6030 (some h) none,
            Event.callExec (some h) "CREATE DATABASE test" (.returned none),
            Event.callExec (some h) "use test" (.returned (some e)),
            Event.callClose (some h) (.returned cl.1)] }
      | none =>
        let i := ins h c2.2
        let cl := d.Close h i.2
        { outcome := .returned (), frame := { drv := cl.2, deferred := [] },
          trace := [Event.callOpen "localhost" "root" "taosdata" "" 6030 (some h) none,
            Event.callExec (some h) "CREATE DATABASE test" (.returned none),
            Event.callExec (some h) "use test" (.returned none),
            insEv (some h) (.returned i.1)] ++
            reportEvents i.1 ++ [Event.callClose (some h) (.returned cl.1)] }

end StraightLine

/-! ## The telnet line format

`<metric> <timestamp> <value> <tag>=<value> [<tag>=<value> ...]`, as the
specification words it. -/

namespace TelnetLine

/-- Split at every occurrence of `sep`, keeping empty fields: a leading,
trailing or doubled separator gives an empty field. -/
def splitOn (sep : Char) : List Char → List (List Char)
  | [] => [[]]
  | c :: cs =>
    if c = sep then [] :: splitOn sep cs
    else
      match splitOn sep cs with
      | f :: fs => (c :: f) :: fs
      | [] => [[c]]

/-- A non-empty string of decimal digits. -/
def isDigits (cs : List Char) : Bool := !cs.isEmpty && cs.all Char.isDigit

/-- A decimal number: digits, optionally followed by a point and digits. -/
def isDecimal (cs : List Char) : Bool :=
  match splitOn '.' cs with
  | [i] => isDigits i
  | [i, f] => isDigits i && isDigits f
  | _ => false

/-- A field `<tag>=<value>`: exactly one `=`, a non-empty name, a non-empty value. -/
def isTag (cs : List Char) : Bool :=
  match splitOn '=' cs with
  | [k, v] => !k.isEmpty && !v.isEmpty
  | _ => false

/-- The fields of a line: the line split on the space character. -/
def fields (line : String) : List (List Char) := splitOn (Char.ofNat 32) line.toList

/-- A line of the telnet format: at least 4 fields, none empty, the second a string
of digits, the third a decimal number, the others `<tag>=<value>`. -/
def wellFormed (line : String) : Bool :=
  let fs := fields line
  decide (4 ≤ fs.length) && fs.all (fun f => !f.isEmpty) &&
    match fs with
    | _ :: ts :: v :: tags => isDigits ts && isDecimal v && tags.all isTag
    | _ => false

end TelnetLine

/-! ## JSON text

A reader for JSON text (RFC 8259) that accepts a subset of it: strings may
not contain escape sequences.  What it accepts is well-formed JSON. -/

namespace JSON

/-- A JSON number as written. -/
structure Number where
  negative : Bool
  intDigits : List Char
  fracDigits : Option (List Char)
  exponent : Option (Bool × List Char)

/-- A number written without fraction and without exponent. -/
def Number.isInteger (n : Number) : Bool := n.fracDigits.isNone && n.exponent.isNone

/-- A JSON value. -/
inductive Value where
  | null
  | bool (b : Bool)
  | num (n : Number)
  | str (s : String)
  | arr (items : List Value)
  | obj (members : List (String × Value))

/-- The tokens of JSON text. -/
inductive Token where
  | lbracket
  | rbracket
  | lbrace
  | rbrace
  | comma
  | colon
  | str (s : String)
  | num (n : Number)
  | litTrue
  | litFalse
  | litNull

/-- The leading digits of a string, and what follows them. -/
def takeDigits : List Char → List Char × List Char
  | [] => ([], [])
  | c :: cs =>
    if c.isDigit then
      let r := takeDigits cs
      (c :: r.1, r.2)
    else ([], c :: cs)

/-- The exponent part of a number, which must end the string: nothing, or `e` or `E`,
an optional sign and at least one digit. -/
def readExponent : List Char → Option (Option (Bool × List Char))
  | [] => some none
  | c :: cs =>
    if c = 'e' || c = 'E' then
      let signed : Bool × List Char :=
        match cs with
        | [] => (false, [])
        | s :: rest => if s = '-' then (true, rest) else if s = '+' then (false, rest) else (false, s :: rest)
      let r := takeDigits signed.2
      if r.1.isEmpty || !r.2.isEmpty then none else some (some (signed.1, r.1))
    else none

/-- The integer part of a number: `0`, or digits that do not start with `0`. -/
def intPartOk : List Char → Bool
  | [] => false
  | [_] => true
  | c :: _ => c != '0'

/-- Read a whole string as a JSON number. -/
def readNumber (cs : List Char) : Option Number :=
  let sign : Bool × List Char :=
    match cs with
    | [] => (false, [])
    | c :: rest => if c = '-' then (true, rest) else (false, c :: rest)
  let i := takeDigits sign.2
  if !intPartOk i.1 then none
  else
    match i.2 with
    | [] => some { negative := sign.1, intDigits := i.1, fracDigits := none, exponent := none }
    | c :: rest =>
      if c = '.' then
        let f := takeDigits rest
        if f.1.isEmpty then none
        else (readExponent f.2).map fun e =>
          { negative := sign.1, intDigits := i.1, fracDigits := some f.1, exponent := e }
      else (readExponent (c :: rest)).map fun e =>
        { negative := sign.1, intDigits := i.1, fracDigits := none, exponent := e }

/-- Space, tab, line feed, carriage return. -/
def isWhitespace (c : Char) : Bool :=
  c = Char.ofNat 32 || c = Char.ofNat 9 || c = Char.ofNat 10 || c = Char.ofNat 13

/-- A character of a number or of a literal name. -/
def isWordChar (c : Char) : Bool := c.isAlphanum || c = '-' || c = '+' || c = '.'

/-- The six structural characters: brackets 91 and 93, braces 123 and 125, comma 44,
colon 58. -/
def structural (c : Char) : Option Token :=
  if c = Char.ofNat 91 then some .lbracket
  else if c = Char.ofNat 93 then some .rbracket
  else if c = Char.ofNat 123 then some .lbrace
  else if c = Char.ofNat 125 then some .rbrace
  else if c = Char.ofNat 44 then some .comma
  else if c = Char.ofNat 58 then some .colon
  else none

/-- A number or one of the literal names `true`, `false`, `null`. -/
def wordToken (w : List Char) : Option Token :=
  if w = ['t', 'r', 'u', 'e'] then some .litTrue
  else if w = ['f', 'a', 'l', 's', 'e'] then some .litFalse
  else if w = ['n', 'u', 'l', 'l'] then some .litNull
  else (readNumber w).map Token.num

/-- Where the tokenizer is: between tokens, inside a string (characters so far,
reversed) or inside a number or literal name (characters so far, reversed). -/
inductive LexState where
  | idle
  | inString (acc : List Char)
  | inWord (acc : List Char)

/-- The tokens of a text, one character at a time.  The quotation mark is character
34 and the backslash character 92; control characters may not occur in a string. -/
def lex : LexState → List Char → Option (List Token)
  | .idle, [] => some []
  | .inString _, [] => none
  | .inWord acc, [] => (wordToken acc.reverse).map fun t => [t]
  | .idle, c :: cs =>
    if isWhitespace c then lex .idle cs
    else if c = Char.ofNat 34 then lex (.inString []) cs
    else
      match structural c with
      | some t => (lex .idle cs).map fun ts => t :: ts
      | none => if isWordChar c then lex (.inWord [c]) cs else none
  | .inString acc, c :: cs =>
    if c = Char.ofNat 34 then (lex .idle cs).map fun ts => Token.str (String.mk acc.reverse) :: ts
    else if c = Char.ofNat 92 || c.toNat < 32 then none
    else lex (.inString (c :: acc)) cs
  | .inWord acc, c :: cs =>
    if isWordChar c then lex (.inWord (c :: acc)) cs
    else
      match wordToken acc.reverse with
      | none => none
      | some t =>
        if isWhitespace c then (lex .idle cs).map fun ts => t :: ts
        else
          match structural c with
          | some t2 => (lex .idle cs).map fun ts => t :: t2 :: ts
          | none => none

/-- An array or object being read: the items so far, reversed, or the members so
far, reversed, and the key whose value is awaited. -/
inductive Open where
  | arr (items : List Value)
  | obj (members : List (String × Value)) (key : Option String)

/-- What the reader expects next. -/
inductive Phase where
  | needValue (mayClose : Bool)
  | needKey (mayClose : Bool)
  | needColon
  | afterValue
  | done (v : Value)

/-- A value is complete: it is the whole text, or goes into the innermost open
array or object. -/
def complete (v : Value) : List Open → Option (List Open × Phase)
  | [] => some ([], .done v)
  | .arr items :: st => some (.arr (v :: items) :: st, .afterValue)
  | .obj members (some k) :: st => some (.obj ((k, v) :: members) none :: st, .afterValue)
  | .obj _ none :: _ => none

/-- One token of the reader. -/
def step (st : List Open) (ph : Phase) (t : Token) : Option (List Open × Phase) :=
  match ph, t with
  | .needValue _, .str s => complete (.str s) st
  | .needValue _, .num n => complete (.num n) st
  | .needValue _, .litTrue => complete (.bool true) st
  | .needValue _, .litFalse => complete (.bool false) st
  | .needValue _, .litNull => complete .null st
  | .needValue _, .lbracket => some (.arr [] :: st, .needValue true)
  | .needValue _, .lbrace => some (.obj [] none :: st, .needKey true)
  | .needValue true, .rbracket =>
    match st with
    | .arr [] :: st' => complete (.arr []) st'
    | _ => none
  | .needKey _, .str k =>
    match st with
    | .obj ms none :: st' => some (.obj ms (some k) :: st', .needColon)
    | _ => none
  | .needKey true, .rbrace =>
    match st with
    | .obj [] none :: st' => complete (.obj []) st'
    | _ => none
  | .needColon, .colon => some (st, .needValue false)
  | .afterValue, .comma =>
    match st with
    | .arr _ :: _ => some (st, .needValue false)
    | .obj _ none :: _ => some (st, .needKey false)
    | _ => none
  | .afterValue, .rbracket =>
    match st with
    | .arr items :: st' => complete (.arr items.reverse) st'
    | _ => none
  | .afterValue, .rbrace =>
    match st with
    | .obj ms none :: st' => complete (.obj ms.reverse) st'
    | _ => none
  | _, _ => none

/-- Read the tokens: the text is well-formed when they end with one complete value. -/
def readTokens : List Open → Phase → List Token → Option Value
  | [], .done v, [] => some v
  | _, _, [] => none
  | st, ph, t :: ts =>
    match step st ph t with
    | some next => readTokens next.1 next.2 ts
    | none => none

/-- Read a JSON text. -/
def parse (s : String) : Option Value :=
  match lex .idle s.toList with
  | some ts => readTokens [] (.needValue false) ts
  | none => none

/-- A string or a number. -/
def Value.isScalar : Value → Bool
  | .str _ => true
  | .num _ => true
  | _ => false

/-- An object with exactly the keys `metric`, `timestamp`, `value` and `tags`: a string,
an integer, a number and an object whose values are all scalars. -/
def isMeasurement : Value → Bool
  | .obj ms =>
    ms.length == 4 &&
    (match ms.lookup "metric" with
      | some (.str _) => true
      | _ => false) &&
    (match ms.lookup "timestamp" with
      | some (.num n) => n.isInteger
      | _ => false) &&
    (match ms.lookup "value" with
      | some (.num _) => true
      | _ => false) &&
    (match ms.lookup "tags" with
      | some (.obj ts) => ts.all fun kv => kv.2.isScalar
      | _ => false)
  | _ => false

/-- A well-formed JSON array of `n` measurement objects. -/
def isMeasurementArray (n : Nat) (s : String) : Bool :=
  match parse s with
  | some (.arr items) => items.length == n && items.all isMeasurement
  | _ => false

end JSON

end TDengine

namespace TDengine

variable {σ : Type}

theorem json_prepareDatabase_eq (d : Driver σ) (conn : ConnPtr) (fr : Frame σ) :
    json.prepareDatabase d conn fr = prepareRun d conn fr := by
  cases conn with
  | none =>
    simp [json.prepareDatabase, prepareRun, Go.func, bind, Go.seq, af.Connector.Exec,
      af.Connector.invoke, pure, Go.ret, Go.panic, Go.unwind]
  | some h =>
    rcases h1 : d.Exec h "CREATE DATABASE test" fr.drv with ⟨e1, s1⟩
    rcases h2 : d.Exec h "use test" s1 with ⟨e2, s2⟩
    cases e1 <;> cases e2 <;>
      simp [json.prepareDatabase, prepareRun, Go.func, bind, Go.seq, af.Connector.Exec,
        af.Connector.invoke, pure, Go.ret, Go.panic, Go.unwind, h1, h2]

theorem telnet_prepareDatabase_eq (d : Driver σ) (conn : ConnPtr) (fr : Frame σ) :
    telnet.prepareDatabase d conn fr = prepareRun d conn fr := by
  cases conn with
  | none =>
    simp [telnet.prepareDatabase, prepareRun, Go.func, bind, Go.seq, af.Connector.Exec,
      af.Connector.invoke, pure, Go.ret, Go.panic, Go.unwind]
  | some h =>
    rcases h1 : d.Exec h "CREATE DATABASE test" fr.drv with ⟨e1, s1⟩
    rcases h2 : d.Exec h "use test" s1 with ⟨e2, s2⟩
    cases e1 <;> cases e2 <;>
      simp [telnet.prepareDatabase, prepareRun, Go.func, bind, Go.seq, af.Connector.Exec,
        af.Connector.invoke, pure, Go.ret, Go.panic, Go.unwind, h1, h2]

theorem json_main_eq (d : Driver σ) (s0 : σ) :
    runProgram (json.main d) s0 =
      mainRun d (fun h => d.OpenTSDBInsertJsonPayload h json.payload)
        (fun c => Event.callInsertJson c json.payload) s0 := by
  rcases hO : d.Open "localhost" "root" "taosdata" "" 6030 s0 with ⟨o, s1⟩
  cases o with
  | error e0 =>
    simp [runProgram, json.main, mainRun, json_prepareDatabase_eq, prepareRun, Go.func, bind,
      Go.seq, af.Open, af.Connector.OpenTSDBInsertJsonPayload, af.Connector.Close,
      af.Connector.invoke, pure, Go.ret, Go.panic, Go.unwind, Go.runDeferred, Go.deferCall,
      fmt.Println, hO]
  | ok h =>
    rcases h1 : d.Exec h "CREATE DATABASE test" s1 with ⟨e1, s2⟩
    rcases h2 : d.Exec h "use test" s2 with ⟨e2, s3⟩
    rcases hI : d.OpenTSDBInsertJsonPayload h json.payload s3 with ⟨ei, s4⟩
    cases e1 <;> cases e2 <;> cases ei <;>
      simp [runProgram, json.main, mainRun, json_prepareDatabase_eq, prepareRun, Go.func, bind,
        Go.seq, af.Open, af.Connector.OpenTSDBInsertJsonPayload, af.Connector.Close,
        af.Connector.invoke, pure, Go.ret, Go.panic, Go.unwind, Go.runDeferred, Go.deferCall,
        fmt.Println, reportEvents, hO, h1, h2, hI]

theorem telnet_main_eq (d : Driver σ) (s0 : σ) :
    runProgram (telnet.main d) s0 =
      mainRun d (fun h => d.OpenTSDBInsertTelnetLines h telnet.lines)
        (fun c => Event.callInsertTelnet c telnet.lines) s0 := by
  rcases hO : d.Open "localhost" "root" "taosdata" "" 6030 s0 with ⟨o, s1⟩
  cases o with
  | error e0 =>
    simp [runProgram, telnet.main, mainRun, telnet_prepareDatabase_eq, prepareRun, Go.func,
      bind, Go.seq, af.Open, af.Connector.OpenTSDBInsertTelnetLines, af.Connector.Close,
      af.Connector.invoke, pure, Go.ret, Go.panic, Go.unwind, Go.runDeferred, Go.deferCall,
      fmt.Println, hO]
  | ok h =>
    rcases h1 : d.Exec h "CREATE DATABASE test" s1 with ⟨e1, s2⟩
    rcases h2 : d.Exec h "use test" s2 with ⟨e2, s3⟩
    rcases hI : d.OpenTSDBInsertTelnetLines h telnet.lines s3 with ⟨ei, s4⟩
    cases e1 <;> cases e2 <;> cases ei <;>
      simp [runProgram, telnet.main, mainRun, telnet_prepareDatabase_eq, prepareRun, Go.func,
        bind, Go.seq, af.Open, af.Connector.OpenTSDBInsertTelnetLines, af.Connector.Close,
        af.Connector.invoke, pure, Go.ret, Go.panic, Go.unwind, Go.runDeferred, Go.deferCall,
        fmt.Println, reportEvents, hO, h1, h2, hI]

theorem Program.prepareDatabase_eq (p : Program) (d : Driver σ) (conn : ConnPtr) (fr : Frame σ) :
    p.prepareDatabase d conn fr = prepareRun d conn fr := by
  cases p
  · exact json_prepareDatabase_eq d conn fr
  · exact telnet_prepareDatabase_eq d conn fr

theorem Program.run_eq (p : Program) (d : Driver σ) (s0 : σ) :
    p.run d s0 = mainRun d (p.insertStep d) p.insertCall s0 := by
  cases p
  · exact json_main_eq d s0
  · exact telnet_main_eq d s0

/-- The four shapes a run of a program can have: `Open` fails and the first call on
the nil connector panics, the first statement fails, the second statement fails, or the
insertion call is reached. -/
theorem Program.run_shape (p : Program) (d : Driver σ) (s0 : σ) :
    (∃ e0, (p.run d s0).outcome = .panicked nilDereference ∧
      (p.run d s0).trace =
        [Event.callOpen "localhost" "root" "taosdata" "" 6030 none (some e0),
         Event.println [.str "fail to connect, err:", .err e0],
         Event.callExec none "CREATE DATABASE test" (.panicked nilDereference),
         Event.callClose none (.panicked nilDereference)]) ∨
    (∃ h e cr, (p.run d s0).outcome = .panicked e ∧
      (p.run d s0).trace =
        [Event.callOpen "localhost" "root" "taosdata" "" 6030 (some h) none,
         Event.callExec (some h) "CREATE DATABASE test" (.returned (some e)),
         Event.callClose (some h) (.returned cr)]) ∨
    (∃ h e cr, (p.run d s0).outcome = .panicked e ∧
      (p.run d s0).trace =
        [Event.callOpen "localhost" "root" "taosdata" "" 6030 (some h) none,
         Event.callExec (some h) "CREATE DATABASE test" (.returned none),
         Event.callExec (some h) "use test" (.returned (some e)),
         Event.callClose (some h) (.returned cr)]) ∨
    (∃ h ie cr, (p.run d s0).outcome = .returned () ∧
      (p.run d s0).trace =
        [Event.callOpen "localhost" "root" "taosdata" "" 6030 (some h) none,
         Event.callExec (some h) "CREATE DATABASE test" (.returned none),
         Event.callExec (some h) "use test" (.returned none)] ++
        p.insertCall (some h) (.returned ie) ::
        (reportEvents ie ++ [Event.callClose (some h) (.returned cr)])) := by
  rw [Program.run_eq]
  rcases hO : d.Open "localhost" "root" "taosdata" "" 6030 s0 with ⟨o, s1⟩
  cases o with
  | error e0 =>
    left
    exact ⟨e0, by simp [mainRun, hO], by simp [mainRun, hO]⟩
  | ok h =>
    right
    rcases h1 : d.Exec h "CREATE DATABASE test" s1 with ⟨e1, s2⟩
    rcases h2 : d.Exec h "use test" s2 with ⟨e2, s3⟩
    cases e1 with
    | some e =>
      left
      exact ⟨h, e, (d.Close h s2).1, by simp [mainRun, hO, h1], by simp [mainRun, hO, h1]⟩
    | none =>
      right
      cases e2 with
      | some e =>
        left
        exact ⟨h, e, (d.Close h s3).1, by simp [mainRun, hO, h1, h2],
          by simp [mainRun, hO, h1, h2]⟩
      | none =>
        right
        exact ⟨h, (p.insertStep d h s3).1, (d.Close h (p.insertStep d h s3).2).1,
          by simp [mainRun, hO, h1, h2], by simp [mainRun, hO, h1, h2]⟩

/-! ## Facts about traces -/

theorem reportEvents_no_insert (err : Option GoError) :
    ∀ a ∈ reportEvents err, a.isInsert = false := by
  cases err <;> simp [reportEvents, Event.isInsert]

theorem closeCount_reportEvents (err : Option GoError) :
    closeCount (reportEvents err) = 0 := by
  cases err <;> simp [closeCount, reportEvents, Event.isClose]

theorem closeCount_append (xs ys : List Event) :
    closeCount (xs ++ ys) = closeCount xs + closeCount ys := by
  simp [closeCount, List.countP_append]

/-- A trace with a single event satisfying `q` splits around it in one way only. -/
theorem split_unique (q : Event → Bool) :
    ∀ (A B pre post : List Event) (x ev : Event),
      (∀ a ∈ A, q a = false) → (∀ b ∈ B, q b = false) → q ev = true →
      A ++ x :: B = pre ++ ev :: post → pre = A ∧ ev = x ∧ post = B := by
  intro A
  induction A with
  | nil =>
    intro B pre post x ev _ hB hev h
    cases pre with
    | nil =>
      simp only [List.nil_append, List.cons.injEq] at h
      exact ⟨rfl, h.1.symm, h.2.symm⟩
    | cons y pre' =>
      simp only [List.nil_append, List.cons_append, List.cons.injEq] at h
      have hmem : ev ∈ B := by rw [h.2]; simp
      have := hB ev hmem
      rw [hev] at this
      cases this
  | cons a A' ih =>
    intro B pre post x ev hA hB hev h
    cases pre with
    | nil =>
      simp only [List.nil_append, List.cons_append, List.cons.injEq] at h
      have := hA a (by simp)
      rw [h.1, hev] at this
      cases this
    | cons y pre' =>
      simp only [List.cons_append, List.cons.injEq] at h
      obtain ⟨h1, h2, h3⟩ :=
        ih B pre' post x ev (fun a' ha' => hA a' (List.mem_cons_of_mem _ ha')) hB hev h.2
      exact ⟨by rw [h1, h.1], h2, h3⟩

/-- C1: in a run of either program that reaches the insertion call, `Close` is called
exactly once, and that call comes after the insertion call: however the trace is split
around an insertion call, no `Close` precedes it and exactly one follows it, whatever the
insertion call returned. -/
theorem close_once_after_insert (p : Program) (d : Driver σ) (s0 : σ)
    (pre post : List Event) (ev : Event)
    (hsplit : (p.run d s0).trace = pre ++ ev :: post) (hins : ev.isInsert = true) :
    closeCount (p.run d s0).trace = 1 ∧ closeCount pre = 0 ∧ closeCount post = 1 := by
  have hmem : ev ∈ (p.run d s0).trace := by rw [hsplit]; simp
  rcases p.run_shape d s0 with ⟨e0, -, ht⟩ | ⟨h, e, cr, -, ht⟩ | ⟨h, e, cr, -, ht⟩ |
    ⟨h, ie, cr, -, ht⟩
  · exfalso
    rw [ht] at hmem
    simp at hmem
    rcases hmem with h' | h' | h' | h' <;> rw [h'] at hins <;> cases hins
  · exfalso
    rw [ht] at hmem
    simp at hmem
    rcases hmem with h' | h' | h' <;> rw [h'] at hins <;> cases hins
  · exfalso
    rw [ht] at hmem
    simp at hmem
    rcases hmem with h' | h' | h' | h' <;> rw [h'] at hins <;> cases hins
  · rw [ht] at hsplit
    obtain ⟨hpre, -, hpost⟩ := split_unique Event.isInsert _ _ pre post _ ev
      (by
        intro a ha
        simp at ha
        rcases ha with h' | h' | h' <;> rw [h'] <;> rfl)
      (by
        intro b hb
        rcases List.mem_append.1 hb with h' | h'
        · exact reportEvents_no_insert _ b h'
        · simp at h'
          rw [h']; rfl)
      hins hsplit
    have hA : closeCount pre = 0 := by
      rw [hpre]
      simp [closeCount, Event.isClose]
    have hB : closeCount post = 1 := by
      rw [hpost, closeCount_append, closeCount_reportEvents]
      simp [closeCount, Event.isClose]
    refine ⟨?_, hA, hB⟩
    rw [ht, hsplit, closeCount_append, hA]
    have hev : closeCount (ev :: post) = closeCount post := by
      cases ev <;> simp [closeCount, Event.isClose, Event.isInsert] at hins ⊢
    rw [hev, hB]

/-- C1, on a concrete run: the json program against a driver whose every call succeeds. -/
theorem close_once_after_insert_witness :
    closeCount (Program.json.run (scripted allOk) 0).trace = 1 ∧
    closeCount [Event.callOpen "localhost" "root" "taosdata" "" 6030 (some 1) none,
      Event.callExec (some 1) "CREATE DATABASE test" (.returned none),
      Event.callExec (some 1) "use test" (.returned none)] = 0 ∧
    closeCount [Event.callClose (some 1) (.returned none)] = 1 :=
  close_once_after_insert Program.json (scripted allOk) 0
    [Event.callOpen "localhost" "root" "taosdata" "" 6030 (some 1) none,
      Event.callExec (some 1) "CREATE DATABASE test" (.returned none),
      Event.callExec (some 1) "use test" (.returned none)]
    [Event.callClose (some 1) (.returned none)]
    (Event.callInsertJson (some 1) json.payload (.returned none)) rfl rfl

/-- C2: a run of either program in which `Open` failed has no insertion call.  `main`
does not return after reporting the failure: it passes the nil connector on, and the first
call made on it, `Exec("CREATE DATABASE test")`, panics. -/
theorem no_insert_after_failed_open (p : Program) (d : Driver σ) (s0 : σ) (conn : ConnPtr)
    (e : GoError)
    (hopen : Event.callOpen "localhost" "root" "taosdata" "" 6030 conn (some e) ∈
      (p.run d s0).trace) :
    insertCount (p.run d s0).trace = 0 ∧
      ∀ ev ∈ (p.run d s0).trace, ev.isInsert = false := by
  rcases p.run_shape d s0 with ⟨e0, -, ht⟩ | ⟨h, e', cr, -, ht⟩ | ⟨h, e', cr, -, ht⟩ |
    ⟨h, ie, cr, -, ht⟩
  · rw [ht]
    simp [insertCount, Event.isInsert]
  · rw [ht] at hopen
    simp at hopen
  · rw [ht] at hopen
    simp at hopen
  · rw [ht] at hopen
    cases ie <;> cases p <;> simp [reportEvents, Program.insertCall] at hopen

/-- C2, on concrete runs: both programs against a driver whose `Open` fails. -/
theorem no_insert_after_failed_open_witness :
    (insertCount (Program.json.run (scripted refusedOpen) 0).trace = 0 ∧
      ∀ ev ∈ (Program.json.run (scripted refusedOpen) 0).trace, ev.isInsert = false) ∧
    (insertCount (Program.telnet.run (scripted refusedOpen) 0).trace = 0 ∧
      ∀ ev ∈ (Program.telnet.run (scripted refusedOpen) 0).trace, ev.isInsert = false) :=
  ⟨no_insert_after_failed_open Program.json (scripted refusedOpen) 0 none
      ⟨"connection refused"⟩ (List.Mem.head _),
   no_insert_after_failed_open Program.telnet (scripted refusedOpen) 0 none
      ⟨"connection refused"⟩ (List.Mem.head _)⟩

theorem prepareRun_shape (d : Driver σ) (conn : ConnPtr) (fr : Frame σ) :
    (conn = none ∧ (prepareRun d conn fr).trace =
        [Event.callExec conn "CREATE DATABASE test" (.panicked nilDereference)] ∧
      (prepareRun d conn fr).outcome = .panicked nilDereference) ∨
    (conn ≠ none ∧ (prepareRun d conn fr).trace =
        [Event.callExec conn "CREATE DATABASE test" (.returned none),
         Event.callExec conn "use test" (.returned none)] ∧
      (prepareRun d conn fr).outcome = .returned ()) ∨
    (∃ e, conn ≠ none ∧ (prepareRun d conn fr).trace =
        [Event.callExec conn "CREATE DATABASE test" (.returned (some e))] ∧
      (prepareRun d conn fr).outcome = .panicked e) ∨
    (∃ e, conn ≠ none ∧ (prepareRun d conn fr).trace =
        [Event.callExec conn "CREATE DATABASE test" (.returned none),
         Event.callExec conn "use test" (.returned (some e))] ∧
      (prepareRun d conn fr).outcome = .panicked e) := by
  cases conn with
  | none => left; simp [prepareRun]
  | some h =>
    right
    rcases h1 : d.Exec h "CREATE DATABASE test" fr.drv with ⟨e1, s1⟩
    rcases h2 : d.Exec h "use test" s1 with ⟨e2, s2⟩
    cases e1 <;> cases e2 <;> simp [prepareRun, h1, h2]

/-- C3 as stated fails: called on the nil connector, as `main` calls it after a failed
`Open`, `prepareDatabase` panics although none of its `Exec` calls returned an error: the
one `Exec` call it makes panics with a nil pointer dereference. -/
theorem prepareDatabase_nil_connector_panics :
    (Program.json.prepareDatabase (scripted refusedOpen) none ⟨1, []⟩).outcome =
      .panicked nilDereference ∧
    (Program.json.prepareDatabase (scripted refusedOpen) none ⟨1, []⟩).trace =
      [Event.callExec none "CREATE DATABASE test" (.panicked nilDereference)] ∧
    ¬ (∀ v, (Program.json.prepareDatabase (scripted refusedOpen) none ⟨1, []⟩).outcome =
        .panicked v ↔
      ∃ sql, Event.callExec none sql (.returned (some v)) ∈
        (Program.json.prepareDatabase (scripted refusedOpen) none ⟨1, []⟩).trace) := by
  have ht : (Program.json.prepareDatabase (scripted refusedOpen) none ⟨1, []⟩).trace =
      [Event.callExec none "CREATE DATABASE test" (.panicked nilDereference)] := rfl
  refine ⟨rfl, ht, ?_⟩
  intro hiff
  obtain ⟨sql, hmem⟩ := (hiff nilDereference).1 rfl
  rw [ht] at hmem
  simp at hmem

/-- C3, amended: `prepareDatabase` (of either program) panics with value `v` exactly when
one of its `Exec` calls returned the error `v` or itself panicked with `v`; on a connector
that is not nil it panics with `v` exactly when one of its `Exec` calls returned the error
`v`; when `CREATE DATABASE test` fails, `use test` is not executed; when an `Exec` call of
a run of `main` fails, the run has no insertion call and prints no `insert error:` line;
when both statements succeed, `prepareDatabase` returns normally. -/
theorem prepareDatabase_panics_iff_exec_fails_or_panics (p : Program) (d : Driver σ)
    (conn : ConnPtr) (fr : Frame σ) (s0 : σ) :
    (∀ v, (p.prepareDatabase d conn fr).outcome = .panicked v ↔
      ∃ sql, Event.callExec conn sql (.returned (some v)) ∈
          (p.prepareDatabase d conn fr).trace ∨
        Event.callExec conn sql (.panicked v) ∈ (p.prepareDatabase d conn fr).trace) ∧
    (conn ≠ none → ∀ v, (p.prepareDatabase d conn fr).outcome = .panicked v ↔
      ∃ sql, Event.callExec conn sql (.returned (some v)) ∈
        (p.prepareDatabase d conn fr).trace) ∧
    (∀ e, Event.callExec conn "CREATE DATABASE test" (.returned (some e)) ∈
        (p.prepareDatabase d conn fr).trace →
      ∀ r, Event.callExec conn "use test" r ∉ (p.prepareDatabase d conn fr).trace) ∧
    (∀ c sql e, Event.callExec c sql (.returned (some e)) ∈ (p.run d s0).trace →
      insertCount (p.run d s0).trace = 0 ∧
      ∀ e', Event.println [.str "insert error:", .err e'] ∉ (p.run d s0).trace) ∧
    (Event.callExec conn "CREATE DATABASE test" (.returned none) ∈
        (p.prepareDatabase d conn fr).trace →
      Event.callExec conn "use test" (.returned none) ∈
        (p.prepareDatabase d conn fr).trace →
      (p.prepareDatabase d conn fr).outcome = .returned ()) := by
  rw [Program.prepareDatabase_eq]
  refine ⟨?_, ?_, ?_, ?_, ?_⟩
  · intro v
    rcases prepareRun_shape d conn fr with ⟨-, ht, ho⟩ | ⟨-, ht, ho⟩ | ⟨e, -, ht, ho⟩ |
      ⟨e, -, ht, ho⟩ <;> rw [ht, ho] <;> simp <;> exact eq_comm
  · intro hconn v
    rcases prepareRun_shape d conn fr with ⟨hc, -, -⟩ | ⟨-, ht, ho⟩ | ⟨e, -, ht, ho⟩ |
      ⟨e, -, ht, ho⟩
    · exact absurd hc hconn
    · rw [ht, ho]; simp
    · rw [ht, ho]; simp; exact eq_comm
    · rw [ht, ho]; simp; exact eq_comm
  · intro e he r
    rcases prepareRun_shape d conn fr with ⟨-, ht, ho⟩ | ⟨-, ht, ho⟩ | ⟨e, -, ht, ho⟩ |
      ⟨e, -, ht, ho⟩ <;> rw [ht] at he ⊢ <;> simp at he ⊢
  · intro c sql e he
    rcases p.run_shape d s0 with ⟨e0, -, ht⟩ | ⟨h, e', cr, -, ht⟩ | ⟨h, e', cr, -, ht⟩ |
      ⟨h, ie, cr, -, ht⟩
    · rw [ht]
      simp [insertCount, Event.isInsert]
    · rw [ht]
      simp [insertCount, Event.isInsert]
    · rw [ht]
      simp [insertCount, Event.isInsert]
    · exfalso
      rw [ht] at he
      cases ie <;> cases p <;> simp [reportEvents, Program.insertCall] at he
  · intro h1 h2
    rcases prepareRun_shape d conn fr with ⟨-, ht, ho⟩ | ⟨-, ht, ho⟩ | ⟨e, -, ht, ho⟩ |
      ⟨e, -, ht, ho⟩
    · rw [ht] at h1; simp at h1
    · exact ho
    · rw [ht] at h1; simp at h1
    · rw [ht] at h2; simp at h2

/-- C3, amended, on concrete runs: on an opened connector, when `CREATE DATABASE test`
fails the panic carries that error, and when `use test` fails it carries that one. -/
theorem prepareDatabase_panics_iff_exec_fails_or_panics_witness :
    (Program.json.prepareDatabase (scripted createFails) (some 1) ⟨1, []⟩).outcome =
      .panicked ⟨"database already exists"⟩ ∧
    (Program.telnet.prepareDatabase (scripted useFails) (some 1) ⟨1, []⟩).outcome =
      .panicked ⟨"invalid database"⟩ :=
  ⟨((prepareDatabase_panics_iff_exec_fails_or_panics Program.json (scripted createFails)
      (some 1) ⟨1, []⟩ 0).2.1 (by simp) ⟨"database already exists"⟩).2
      ⟨"CREATE DATABASE test", List.Mem.head _⟩,
   ((prepareDatabase_panics_iff_exec_fails_or_panics Program.telnet (scripted useFails)
      (some 1) ⟨1, []⟩ 0).2.1 (by simp) ⟨"invalid database"⟩).2
      ⟨"use test", List.Mem.tail _ (List.Mem.head _)⟩⟩

/-- C4: in a run where `Open` and both statements succeeded and the insertion call
returned `ie`, the lines printed are the single line `insert error:` with that error when
`ie` is an error and none when it is nil, the insertion call is made once, and `main`
returns normally instead of panicking. -/
theorem insert_failure_reported_only (p : Program) (d : Driver σ) (s0 : σ) (conn : ConnPtr)
    (ie : Option GoError)
    (hopen : Event.callOpen "localhost" "root" "taosdata" "" 6030 conn none ∈ (p.run d s0).trace)
    (hcreate : Event.callExec conn "CREATE DATABASE test" (.returned none) ∈
      (p.run d s0).trace)
    (huse : Event.callExec conn "use test" (.returned none) ∈ (p.run d s0).trace)
    (hins : p.insertCall conn (.returned ie) ∈ (p.run d s0).trace) :
    printedLines (p.run d s0).trace =
        (ie.map fun e => [Operand.str "insert error:", Operand.err e]).toList ∧
      insertCount (p.run d s0).trace = 1 ∧
      (p.run d s0).outcome = .returned () := by
  rcases p.run_shape d s0 with ⟨e0, -, ht⟩ | ⟨h, e', cr, -, ht⟩ | ⟨h, e', cr, -, ht⟩ |
    ⟨h, ie', cr, ho, ht⟩
  · exfalso
    rw [ht] at hins
    cases p <;> simp [Program.insertCall] at hins
  · exfalso
    rw [ht] at hins
    cases p <;> simp [Program.insertCall] at hins
  · exfalso
    rw [ht] at hins
    cases p <;> simp [Program.insertCall] at hins
  · rw [ht] at hins ⊢
    refine ⟨?_, ?_, ho⟩
    · cases ie' <;> cases ie <;> cases p <;>
        simp [reportEvents, Program.insertCall] at hins <;>
        simp [printedLines, reportEvents, Program.insertCall, Event.printed, hins]
    · cases ie' <;> cases p <;>
        simp [insertCount, reportEvents, Program.insertCall, Event.isInsert]

/-- C4, on a concrete run: the telnet program against a driver whose insertion call fails. -/
theorem insert_failure_reported_only_witness :
    printedLines (Program.telnet.run (scripted insertFails) 0).trace =
        [[Operand.str "insert error:", Operand.err ⟨"syntax error"⟩]] ∧
      insertCount (Program.telnet.run (scripted insertFails) 0).trace = 1 ∧
      (Program.telnet.run (scripted insertFails) 0).outcome = .returned () :=
  insert_failure_reported_only Program.telnet (scripted insertFails) 0 (some 1)
    (some ⟨"syntax error"⟩)
    (List.Mem.head _)
    (List.Mem.tail _ (List.Mem.head _))
    (List.Mem.tail _ (List.Mem.tail _ (List.Mem.head _)))
    (List.Mem.tail _ (List.Mem.tail _ (List.Mem.tail _ (List.Mem.head _))))

/-- C5: in a run where `Open` returned the connector `conn` and the error `e`, the run
starts with that call, then the line `fail to connect, err:` with `e`, then the call
`Exec("CREATE DATABASE test")` on `conn`: the program reports the failure and goes on. -/
theorem failed_open_reported_then_continues (p : Program) (d : Driver σ) (s0 : σ)
    (conn : ConnPtr) (e : GoError)
    (hopen : Event.callOpen "localhost" "root" "taosdata" "" 6030 conn (some e) ∈
      (p.run d s0).trace) :
    ∃ r rest, (p.run d s0).trace =
      Event.callOpen "localhost" "root" "taosdata" "" 6030 conn (some e) ::
      Event.println [.str "fail to connect, err:", .err e] ::
      Event.callExec conn "CREATE DATABASE test" r :: rest := by
  rcases p.run_shape d s0 with ⟨e0, -, ht⟩ | ⟨h, e', cr, -, ht⟩ | ⟨h, e', cr, -, ht⟩ |
    ⟨h, ie, cr, -, ht⟩
  · rw [ht] at hopen ⊢
    simp at hopen
    obtain ⟨rfl, rfl⟩ := hopen
    exact ⟨_, _, rfl⟩
  · rw [ht] at hopen
    simp at hopen
  · rw [ht] at hopen
    simp at hopen
  · rw [ht] at hopen
    cases ie <;> cases p <;> simp [reportEvents, Program.insertCall] at hopen

/-- C5, on a concrete run: the json program against a driver whose `Open` fails. -/
theorem failed_open_reported_then_continues_witness :
    ∃ r rest, (Program.json.run (scripted refusedOpen) 0).trace =
      Event.callOpen "localhost" "root" "taosdata" "" 6030 none (some ⟨"connection refused"⟩) ::
      Event.println [.str "fail to connect, err:", .err ⟨"connection refused"⟩] ::
      Event.callExec none "CREATE DATABASE test" r :: rest :=
  failed_open_reported_then_continues Program.json (scripted refusedOpen) 0 none
    ⟨"connection refused"⟩ (List.Mem.head _)

/-- C6: in a run of either program where every driver call returned a nil error, the
driver calls are, in this order and with nothing else: `Open("localhost", "root",
"taosdata", "", 6030)`, `Exec("CREATE DATABASE test")`, `Exec("use test")`, the program's
insertion call with its hardcoded payload, and `Close`, the last four on the connector
that `Open` returned. -/
theorem all_succeed_call_sequence (p : Program) (d : Driver σ) (s0 : σ)
    (hok : ∀ ev ∈ (p.run d s0).trace, ev.result = .returned none) :
    ∃ conn, driverCalls (p.run d s0).trace =
      [Event.callOpen "localhost" "root" "taosdata" "" 6030 conn none,
       Event.callExec conn "CREATE DATABASE test" (.returned none),
       Event.callExec conn "use test" (.returned none),
       p.insertCall conn (.returned none),
       Event.callClose conn (.returned none)] := by
  rcases p.run_shape d s0 with ⟨e0, -, ht⟩ | ⟨h, e, cr, -, ht⟩ | ⟨h, e, cr, -, ht⟩ |
    ⟨h, ie, cr, -, ht⟩
  · exfalso
    have := hok (Event.callExec none "CREATE DATABASE test" (.panicked nilDereference))
      (by rw [ht]; simp)
    simp [Event.result] at this
  · exfalso
    have := hok (Event.callExec (some h) "CREATE DATABASE test" (.returned (some e)))
      (by rw [ht]; simp)
    simp [Event.result] at this
  · exfalso
    have := hok (Event.callExec (some h) "use test" (.returned (some e))) (by rw [ht]; simp)
    simp [Event.result] at this
  · have h2 := hok (p.insertCall (some h) (.returned ie)) (by rw [ht]; simp)
    have h3 := hok (Event.callClose (some h) (.returned cr)) (by rw [ht]; simp)
    simp only [Event.result, CallResult.returned.injEq] at h3
    have h2' : ie = none := by cases p <;> simpa [Program.insertCall, Event.result] using h2
    subst h2' h3
    refine ⟨some h, ?_⟩
    rw [ht]
    cases p <;> simp [driverCalls, reportEvents, Program.insertCall, Event.isDriverCall]

/-- C6, on a concrete run: the json program against a driver whose every call succeeds. -/
theorem all_succeed_call_sequence_witness :
    ∃ conn, driverCalls (Program.json.run (scripted allOk) 0).trace =
      [Event.callOpen "localhost" "root" "taosdata" "" 6030 conn none,
       Event.callExec conn "CREATE DATABASE test" (.returned none),
       Event.callExec conn "use test" (.returned none),
       Event.callInsertJson conn json.payload (.returned none),
       Event.callClose conn (.returned none)] :=
  all_succeed_call_sequence Program.json (scripted allOk) 0 (by
    intro ev hev
    have hrun : (Program.json.run (scripted allOk) 0).trace =
      [Event.callOpen "localhost" "root" "taosdata" "" 6030 (some 1) none,
       Event.callExec (some 1) "CREATE DATABASE test" (.returned none),
       Event.callExec (some 1) "use test" (.returned none),
       Event.callInsertJson (some 1) json.payload (.returned none),
       Event.callClose (some 1) (.returned none)] := rfl
    rw [hrun] at hev
    simp only [List.mem_cons, List.mem_singleton, List.not_mem_nil, or_false] at hev
    rcases hev with h | h | h | h | h <;> rw [h] <;> rfl)

/-- C9: in a run where `Open` succeeded with connector `conn` and an `Exec` call failed
with `v` (so that `prepareDatabase` panics), the run ends with that failing `Exec` followed
by `Close` on `conn`, which returns, as its last event, `Close` is called exactly once,
and `main` ends in the panic with value `v`. -/
theorem close_runs_on_panic (p : Program) (d : Driver σ) (s0 : σ) (conn c : ConnPtr)
    (sql : String) (v : GoError)
    (hopen : Event.callOpen "localhost" "root" "taosdata" "" 6030 conn none ∈ (p.run d s0).trace)
    (hfail : Event.callExec c sql (.returned (some v)) ∈ (p.run d s0).trace) :
    (∃ pre r, (p.run d s0).trace =
        pre ++ [Event.callExec conn sql (.returned (some v)),
          Event.callClose conn (.returned r)] ∧
        closeCount pre = 0) ∧
      closeCount (p.run d s0).trace = 1 ∧
      (p.run d s0).outcome = .panicked v := by
  rcases p.run_shape d s0 with ⟨e0, -, ht⟩ | ⟨h, e, cr, ho, ht⟩ | ⟨h, e, cr, ho, ht⟩ |
    ⟨h, ie, cr, -, ht⟩
  · exfalso
    rw [ht] at hfail
    simp at hfail
  · rw [ht] at hopen hfail ⊢
    rw [ho]
    simp at hopen hfail
    obtain ⟨rfl, rfl, rfl⟩ := hfail
    subst hopen
    refine ⟨⟨[Event.callOpen "localhost" "root" "taosdata" "" 6030 (some h) none], cr, rfl,
      ?_⟩, ?_, rfl⟩
    · simp [closeCount, Event.isClose]
    · simp [closeCount, Event.isClose]
  · rw [ht] at hopen hfail ⊢
    rw [ho]
    simp at hopen hfail
    obtain ⟨rfl, rfl, rfl⟩ := hfail
    subst hopen
    refine ⟨⟨[Event.callOpen "localhost" "root" "taosdata" "" 6030 (some h) none,
      Event.callExec (some h) "CREATE DATABASE test" (.returned none)], cr, rfl, ?_⟩, ?_, rfl⟩
    · simp [closeCount, Event.isClose]
    · simp [closeCount, Event.isClose]
  · exfalso
    rw [ht] at hfail
    cases ie <;> cases p <;> simp [reportEvents, Program.insertCall] at hfail

/-- C9, on a concrete run: the telnet program against a driver whose `use test` fails. -/
theorem close_runs_on_panic_witness :
    (∃ pre r, (Program.telnet.run (scripted useFails) 0).trace =
        pre ++ [Event.callExec (some 1) "use test" (.returned (some ⟨"invalid database"⟩)),
          Event.callClose (some 1) (.returned r)] ∧
        closeCount pre = 0) ∧
      closeCount (Program.telnet.run (scripted useFails) 0).trace = 1 ∧
      (Program.telnet.run (scripted useFails) 0).outcome = .panicked ⟨"invalid database"⟩ :=
  close_runs_on_panic Program.telnet (scripted useFails) 0 (some 1) (some 1) "use test"
    ⟨"invalid database"⟩ (List.Mem.head _)
    (List.Mem.tail _ (List.Mem.tail _ (List.Mem.head _)))

/-- The abstracted trace, the outcome and the final driver state of `mainRun` do not
depend on which insertion call is recorded. -/
theorem mainRun_abstract (d : Driver σ) (ins : Handle → σ → Option GoError × σ) (s0 : σ)
    (ev1 ev2 : ConnPtr → CallResult → Event)
    (h : ∀ c r, (ev1 c r).abstractInsert = (ev2 c r).abstractInsert) :
    (mainRun d ins ev1 s0).trace.map Event.abstractInsert =
        (mainRun d ins ev2 s0).trace.map Event.abstractInsert ∧
      (mainRun d ins ev1 s0).outcome = (mainRun d ins ev2 s0).outcome ∧
      (mainRun d ins ev1 s0).frame.drv = (mainRun d ins ev2 s0).frame.drv := by
  rcases hO : d.Open "localhost" "root" "taosdata" "" 6030 s0 with ⟨o, s1⟩
  cases o with
  | error e0 => simp [mainRun, hO]
  | ok hd =>
    rcases h1 : d.Exec hd "CREATE DATABASE test" s1 with ⟨e1, s2⟩
    rcases h2 : d.Exec hd "use test" s2 with ⟨e2, s3⟩
    cases e1 <;> cases e2 <;> simp [mainRun, hO, h1, h2, h]

/-- C10: the two `prepareDatabase` functions are the same function, and against a driver
that answers the two insertion calls alike, the json `main` and the telnet `main` have the
same trace of driver calls and printed lines once the insertion call is abstracted, the
same outcome and the same final driver state. -/
theorem programs_agree_up_to_insertion (d : Driver σ) (s0 : σ)
    (hsame : ∀ h s, d.OpenTSDBInsertJsonPayload h json.payload s =
      d.OpenTSDBInsertTelnetLines h telnet.lines s) :
    @json.prepareDatabase σ = @telnet.prepareDatabase σ ∧
      (runProgram (json.main d) s0).trace.map Event.abstractInsert =
        (runProgram (telnet.main d) s0).trace.map Event.abstractInsert ∧
      (runProgram (json.main d) s0).outcome = (runProgram (telnet.main d) s0).outcome ∧
      (runProgram (json.main d) s0).frame.drv = (runProgram (telnet.main d) s0).frame.drv := by
  refine ⟨rfl, ?_⟩
  rw [json_main_eq, telnet_main_eq]
  have hins : (fun h => d.OpenTSDBInsertJsonPayload h json.payload) =
      (fun h => d.OpenTSDBInsertTelnetLines h telnet.lines) := by
    funext h s
    exact hsame h s
  rw [hins]
  exact mainRun_abstract d _ s0 _ _ (fun _ _ => rfl)

/-- C10, on concrete runs: both programs against a driver whose insertion calls fail. -/
theorem programs_agree_up_to_insertion_witness :
    @json.prepareDatabase Nat = @telnet.prepareDatabase Nat ∧
      (runProgram (json.main (scripted insertFails)) 0).trace.map Event.abstractInsert =
        (runProgram (telnet.main (scripted insertFails)) 0).trace.map Event.abstractInsert ∧
      (runProgram (json.main (scripted insertFails)) 0).outcome =
        (runProgram (telnet.main (scripted insertFails)) 0).outcome ∧
      (runProgram (json.main (scripted insertFails)) 0).frame.drv =
        (runProgram (telnet.main (scripted insertFails)) 0).frame.drv :=
  programs_agree_up_to_insertion (scripted insertFails) 0 (fun _ _ => rfl)

/-! ## The payloads -/

theorem telnet_lines_format :
    telnet.lines.length = 8 ∧ ∀ l ∈ telnet.lines, TelnetLine.wellFormed l = true := by
  decide

set_option maxRecDepth 1000000 in
theorem json_payload_format : JSON.isMeasurementArray 4 json.payload = true := by
  decide

theorem JSON.isMeasurementArray_spec (n : Nat) (s : String)
    (h : JSON.isMeasurementArray n s = true) :
    ∃ items, JSON.parse s = some (.arr items) ∧ items.length = n ∧
      ∀ v ∈ items, JSON.isMeasurement v = true := by
  unfold JSON.isMeasurementArray at h
  split at h
  · rename_i items hp
    simp only [Bool.and_eq_true, beq_iff_eq, List.all_eq_true] at h
    exact ⟨items, hp, h.1, h.2⟩
  · cases h

/-- C7: the argument of every `OpenTSDBInsertTelnetLines` call of the telnet program has
exactly 8 lines, and each of them, split on the space character, has at least 4 fields,
none empty, the second a non-empty string of decimal digits, the third a decimal number,
and every later one a non-empty name, one `=` and a non-empty value. -/
theorem telnet_payload_well_formed (d : Driver σ) (s0 : σ) (conn : ConnPtr)
    (ls : List String) (r : CallResult)
    (hcall : Event.callInsertTelnet conn ls r ∈ (runProgram (telnet.main d) s0).trace) :
    ls.length = 8 ∧ ∀ l ∈ ls, TelnetLine.wellFormed l = true := by
  have hls : ls = telnet.lines := by
    have hs := Program.run_shape Program.telnet d s0
    simp only [Program.run, Program.main, Program.insertCall] at hs
    rcases hs with ⟨e0, -, ht⟩ | ⟨h, e, cr, -, ht⟩ | ⟨h, e, cr, -, ht⟩ | ⟨h, ie, cr, -, ht⟩ <;>
      rw [ht] at hcall <;> simp at hcall
    cases ie <;> simp [reportEvents] at hcall <;> exact hcall.2.1
  rw [hls]
  exact telnet_lines_format

/-- C7, on a concrete run: the telnet program against a driver whose every call succeeds. -/
theorem telnet_payload_well_formed_witness :
    telnet.lines.length = 8 ∧ ∀ l ∈ telnet.lines, TelnetLine.wellFormed l = true :=
  telnet_payload_well_formed (scripted allOk) 0 (some 1) telnet.lines (.returned none)
    (List.Mem.tail _ (List.Mem.tail _ (List.Mem.tail _ (List.Mem.head _))))

/-- C8: the argument of every `OpenTSDBInsertJsonPayload` call of the json program is
a well-formed JSON text, an array of exactly 4 values, each an object with exactly the keys
`metric` (a string), `timestamp` (an integer), `value` (a number) and `tags` (an object whose
values are strings or numbers). -/
theorem json_payload_well_formed (d : Driver σ) (s0 : σ) (conn : ConnPtr)
    (pl : String) (r : CallResult)
    (hcall : Event.callInsertJson conn pl r ∈ (runProgram (json.main d) s0).trace) :
    ∃ items, JSON.parse pl = some (.arr items) ∧ items.length = 4 ∧
      ∀ v ∈ items, JSON.isMeasurement v = true := by
  have hpl : pl = json.payload := by
    have hs := Program.run_shape Program.json d s0
    simp only [Program.run, Program.main, Program.insertCall] at hs
    rcases hs with ⟨e0, -, ht⟩ | ⟨h, e, cr, -, ht⟩ | ⟨h, e, cr, -, ht⟩ | ⟨h, ie, cr, -, ht⟩ <;>
      rw [ht] at hcall <;> simp at hcall
    cases ie <;> simp [reportEvents] at hcall <;> exact hcall.2.1
  rw [hpl]
  exact JSON.isMeasurementArray_spec 4 json.payload json_payload_format

/-- C8, on a concrete run: the json program against a driver whose every call succeeds. -/
theorem json_payload_well_formed_witness :
    ∃ items, JSON.parse json.payload = some (.arr items) ∧ items.length = 4 ∧
      ∀ v ∈ items, JSON.isMeasurement v = true :=
  json_payload_well_formed (scripted allOk) 0 (some 1) json.payload (.returned none)
    (List.Mem.tail _ (List.Mem.tail _ (List.Mem.tail _ (List.Mem.head _))))

end TDengine
